import Mathlib

/-!
Verification of the FAB access-token/session broker.

Shallow embedding of the store layer (`fab/db/database.py`, `fab/db/models.py`,
`fab/db/manager.py`), the web coordinator (`fab/web/server.py`) and the two
event-publisher strategies (`fab/utils/mqtt.py`, `fab/utils/rabbitmq.py`).
Timestamps are modelled as integers (epoch seconds), the SQLite tables as
lists of rows, and each SQL statement as the corresponding pure list
transformation.
-/

/-- An IPv4 address, modelled as its four octets. -/
abbrev IPv4 := Nat × Nat × Nat × Nat

/-- `AccessStatus` enum from `fab/db/models.py` (values "open" / "closed").
The constructor for "open" is named `opened` because `open` is a Lean keyword. -/
inductive AccessStatus where
  | opened
  | closed
deriving DecidableEq, Repr

/-- A row of the `user_sessions` table (dataclass `UserSession` in
`fab/db/models.py`). -/
structure UserSession where
  token : String
  telegram_user_id : Int
  chat_id : Int
  ip_address : Option IPv4
  created_at : Int
  expires_at : Int
  used : Bool
deriving DecidableEq, Repr

/-- A row of the `access_requests` table (dataclass `AccessRequest` in
`fab/db/models.py`). -/
structure AccessRequest where
  id : String
  telegram_user_id : Int
  chat_id : Int
  ip_address : Option IPv4
  duration : Int
  status : AccessStatus
  created_at : Int
  expires_at : Option Int
  closed_at : Option Int
deriving DecidableEq, Repr

/-- The durable store owned by `Database` in `fab/db/database.py`:
the `user_sessions` and `access_requests` tables. -/
structure Store where
  sessions : List UserSession
  requests : List AccessRequest
deriving DecidableEq, Repr

namespace UserSession

/-- `UserSession.is_expired`: `datetime.now(timezone.utc) > self.expires_at`
(strict comparison). -/
def is_expired (s : UserSession) (now : Int) : Bool :=
  decide (now > s.expires_at)

/-- Row predicate of the SQL in `UserSession.use_atomic`:
`WHERE token = ? AND used = 0`. -/
def consumeMatch (token : String) (s : UserSession) : Bool :=
  s.token == token && s.used == false

/-- `UserSession.use_atomic`: executes
`UPDATE user_sessions SET used = 1, ip_address = ? WHERE token = ? AND used = 0`
and returns the updated table together with `cursor.rowcount == 1`. -/
def use_atomic (db : List UserSession) (token : String) (ip : IPv4) :
    List UserSession × Bool :=
  (db.map (fun s =>
      if consumeMatch token s then
        { s with used := true, ip_address := some ip }
      else s),
   db.countP (consumeMatch token) == 1)

/-- `UserSession.get_by_token`: `SELECT * FROM user_sessions WHERE token = ?`
with `fetchone`. -/
def get_by_token (db : List UserSession) (token : String) : Option UserSession :=
  db.find? (fun s => s.token == token)

/-- `UserSession.delete`: `DELETE FROM user_sessions WHERE token = ?`. -/
def delete (db : List UserSession) (token : String) : List UserSession :=
  db.filter (fun s => !(s.token == token))

end UserSession

namespace DatabaseManager

/-- `DatabaseManager.get_session`: fetch by token and, when the session is
expired, delete it and report absent.  Returns the result together with the
table after the potential lazy deletion. -/
def get_session (db : List UserSession) (token : String) (now : Int) :
    Option UserSession × List UserSession :=
  match UserSession.get_by_token db token with
  | none => (none, db)
  | some s =>
      if s.is_expired now then (none, UserSession.delete db token)
      else (some s, db)

end DatabaseManager

/-- Tokens of a session table (the `token` PRIMARY KEY column). -/
def sessionTokens (db : List UserSession) : List String :=
  db.map (fun s => s.token)

/-- Under the PRIMARY KEY constraint, at most one row matches the conditional
update of `use_atomic`. -/
theorem countP_consumeMatch_le_one (db : List UserSession) (token : String)
    (hnd : (sessionTokens db).Nodup) :
    db.countP (UserSession.consumeMatch token) ≤ 1 := by
  induction db with
  | nil => simp
  | cons s rest ih =>
      simp only [sessionTokens, List.map_cons, List.nodup_cons] at hnd
      rw [List.countP_cons]
      by_cases hm : UserSession.consumeMatch token s = true
      · have htok : s.token = token := by
          have := hm
          unfold UserSession.consumeMatch at this
          simp only [Bool.and_eq_true, beq_iff_eq] at this
          exact this.1
        have hzero : rest.countP (UserSession.consumeMatch token) = 0 := by
          rw [List.countP_eq_zero]
          intro a ha hcontra
          have hatok : a.token = token := by
            unfold UserSession.consumeMatch at hcontra
            simp only [Bool.and_eq_true, beq_iff_eq] at hcontra
            exact hcontra.1
          exact hnd.1 (by rw [htok, ← hatok]; exact List.mem_map_of_mem _ ha)
        rw [if_pos hm, hzero]
      · have ih1 := ih hnd.2
        rw [if_neg hm]
        omega

/-- After a successful `use_atomic`, every row carrying the consumed token is
marked used with the recorded IP. -/
theorem use_atomic_success_marks (db : List UserSession) (token : String)
    (ip : IPv4) (s : UserSession)
    (hs : s ∈ (UserSession.use_atomic db token ip).1) (htok : s.token = token)
    (hnd : (sessionTokens db).Nodup)
    (hok : (UserSession.use_atomic db token ip).2 = true) :
    s.used = true ∧ s.ip_address = some ip := by
  unfold UserSession.use_atomic at hs hok
  simp only [List.mem_map] at hs
  obtain ⟨s₀, hs₀, hupd⟩ := hs
  simp only [beq_iff_eq] at hok
  have hpos : 0 < db.countP (UserSession.consumeMatch token) := by omega
  rw [List.countP_pos_iff] at hpos
  obtain ⟨r, hr, hrm⟩ := hpos
  by_cases hm : UserSession.consumeMatch token s₀ = true
  · rw [if_pos hm] at hupd
    subst hupd
    exact ⟨rfl, rfl⟩
  · rw [if_neg hm] at hupd
    subst hupd
    -- the unmatched row s₀ has the token, hence coincides with the matched row r
    exfalso
    have hrtok : r.token = token := by
      unfold UserSession.consumeMatch at hrm
      simp only [Bool.and_eq_true, beq_iff_eq] at hrm
      exact hrm.1
    have hinj := List.inj_on_of_nodup_map
      (f := fun s : UserSession => s.token) (l := db) (by simpa [sessionTokens] using hnd)
    have : s₀ = r := hinj hs₀ hr (by rw [htok, hrtok])
    subst this
    exact hm hrm

/-- The table produced by `use_atomic` keeps the token column unchanged. -/
theorem use_atomic_tokens (db : List UserSession) (token : String) (ip : IPv4) :
    sessionTokens (UserSession.use_atomic db token ip).1 = sessionTokens db := by
  unfold UserSession.use_atomic sessionTokens
  rw [List.map_map]
  apply List.map_congr_left
  intro s _
  by_cases hm : UserSession.consumeMatch token s = true
  · rw [Function.comp_apply, if_pos hm]
  · rw [Function.comp_apply, if_neg hm]

/-- After a successful `use_atomic`, no row matches the conditional update any
more, so a later `use_atomic` on the same token returns false and changes
nothing. -/
theorem use_atomic_twice (db : List UserSession) (token : String)
    (ip₁ ip₂ : IPv4) (hnd : (sessionTokens db).Nodup)
    (hok : (UserSession.use_atomic db token ip₁).2 = true) :
    UserSession.use_atomic (UserSession.use_atomic db token ip₁).1 token ip₂ =
      ((UserSession.use_atomic db token ip₁).1, false) := by
  set db₁ := (UserSession.use_atomic db token ip₁).1 with hdb₁
  have hnomatch : ∀ s ∈ db₁, UserSession.consumeMatch token s = false := by
    intro s hs
    by_cases htok : s.token = token
    · have := use_atomic_success_marks db token ip₁ s hs htok hnd hok
      unfold UserSession.consumeMatch
      simp [this.1]
    · unfold UserSession.consumeMatch
      simp [htok]
  unfold UserSession.use_atomic
  simp only [Prod.mk.injEq]
  constructor
  · apply List.map_congr_left _ |>.trans (List.map_id db₁)
    intro s hs
    rw [hnomatch s hs]
    rfl
  · have : db₁.countP (UserSession.consumeMatch token) = 0 := by
      rw [List.countP_eq_zero]
      intro a ha
      simp [hnomatch a ha]
    simp [this]

/-- C1. Token consumption is at-most-once: under the `token` PRIMARY KEY
constraint, `use_atomic` returns true if and only if a session row with the
token exists with `used = false`; a successful consume marks the row used and
records the IP, and any later consume of the same token returns false and
leaves the table — in particular the stored `ip_address` — unchanged. -/
theorem use_atomic_at_most_once (db : List UserSession) (token : String)
    (ip₁ ip₂ : IPv4) (hnd : (sessionTokens db).Nodup) :
    ((UserSession.use_atomic db token ip₁).2 = true ↔
       ∃ s ∈ db, s.token = token ∧ s.used = false) ∧
    ((UserSession.use_atomic db token ip₁).2 = true →
       (∀ s ∈ (UserSession.use_atomic db token ip₁).1, s.token = token →
          s.used = true ∧ s.ip_address = some ip₁) ∧
       UserSession.use_atomic (UserSession.use_atomic db token ip₁).1 token ip₂ =
         ((UserSession.use_atomic db token ip₁).1, false)) := by
  constructor
  · constructor
    · intro hok
      have : 0 < db.countP (UserSession.consumeMatch token) := by
        unfold UserSession.use_atomic at hok
        simp only [beq_iff_eq] at hok
        omega
      rw [List.countP_pos_iff] at this
      obtain ⟨s, hs, hm⟩ := this
      refine ⟨s, hs, ?_⟩
      unfold UserSession.consumeMatch at hm
      simp only [Bool.and_eq_true, beq_iff_eq] at hm
      exact ⟨hm.1, hm.2⟩
    · intro ⟨s, hs, htok, hused⟩
      have hpos : 0 < db.countP (UserSession.consumeMatch token) := by
        rw [List.countP_pos_iff]
        exact ⟨s, hs, by unfold UserSession.consumeMatch; simp [htok, hused]⟩
      have hle := countP_consumeMatch_le_one db token hnd
      unfold UserSession.use_atomic
      simp only [beq_iff_eq]
      omega
  · intro hok
    exact ⟨fun s hs htok => use_atomic_success_marks db token ip₁ s hs htok hnd hok,
           use_atomic_twice db token ip₁ ip₂ hnd hok⟩

/-- Concrete session used to instantiate the at-most-once theorem. -/
def c1Session : UserSession :=
  { token := "aaaaaaaa-aaaa-4aaa-8aaa-aaaaaaaaaaaa", telegram_user_id := 1,
    chat_id := 2, ip_address := none, created_at := 0, expires_at := 1000,
    used := false }

/-- Witness for C1 at a concrete one-row table. -/
theorem use_atomic_at_most_once_witness :
    ((UserSession.use_atomic [c1Session]
        "aaaaaaaa-aaaa-4aaa-8aaa-aaaaaaaaaaaa" (1, 2, 3, 4)).2 = true ↔
       ∃ s ∈ [c1Session],
         s.token = "aaaaaaaa-aaaa-4aaa-8aaa-aaaaaaaaaaaa" ∧ s.used = false) ∧
    ((UserSession.use_atomic [c1Session]
        "aaaaaaaa-aaaa-4aaa-8aaa-aaaaaaaaaaaa" (1, 2, 3, 4)).2 = true →
       (∀ s ∈ (UserSession.use_atomic [c1Session]
            "aaaaaaaa-aaaa-4aaa-8aaa-aaaaaaaaaaaa" (1, 2, 3, 4)).1,
          s.token = "aaaaaaaa-aaaa-4aaa-8aaa-aaaaaaaaaaaa" →
          s.used = true ∧ s.ip_address = some (1, 2, 3, 4)) ∧
       UserSession.use_atomic
           (UserSession.use_atomic [c1Session]
             "aaaaaaaa-aaaa-4aaa-8aaa-aaaaaaaaaaaa" (1, 2, 3, 4)).1
           "aaaaaaaa-aaaa-4aaa-8aaa-aaaaaaaaaaaa" (5, 6, 7, 8) =
         ((UserSession.use_atomic [c1Session]
             "aaaaaaaa-aaaa-4aaa-8aaa-aaaaaaaaaaaa" (1, 2, 3, 4)).1, false)) :=
  use_atomic_at_most_once [c1Session] "aaaaaaaa-aaaa-4aaa-8aaa-aaaaaaaaaaaa"
    (1, 2, 3, 4) (5, 6, 7, 8) (by decide)

/-- Session that expires exactly at the observation instant. -/
def c5Session : UserSession :=
  { token := "cccccccc-cccc-4ccc-8ccc-cccccccccccc", telegram_user_id := 1,
    chat_id := 2, ip_address := none, created_at := 0, expires_at := 100,
    used := false }

/-- C5 counterexample: `get_session` at `now = expiresAt` returns the session
as valid, because `is_expired` uses the strict comparison `now > expiresAt`;
the claim says a session with `expiresAt <= now` is never returned. -/
theorem get_session_boundary_counterexample :
    c5Session.expires_at ≤ 100 ∧
    (DatabaseManager.get_session [c5Session]
        "cccccccc-cccc-4ccc-8ccc-cccccccccccc" 100).1 = some c5Session := by
  decide

/-- C5 amended: `get_session` returns absent and deletes the stored session
whenever `expiresAt` is strictly before `now`; a stored session with
`now <= expiresAt` (including the boundary `expiresAt = now`) is returned
unchanged, and an absent token yields absent without modification. -/
theorem get_session_expiry_amended (db : List UserSession) (token : String)
    (now : Int) :
    (UserSession.get_by_token db token = none →
       DatabaseManager.get_session db token now = (none, db)) ∧
    (∀ s, UserSession.get_by_token db token = some s →
       (s.expires_at < now →
          DatabaseManager.get_session db token now =
            (none, UserSession.delete db token)) ∧
       (now ≤ s.expires_at →
          DatabaseManager.get_session db token now = (some s, db))) := by
  constructor
  · intro h
    unfold DatabaseManager.get_session
    rw [h]
  · intro s hs
    constructor
    · intro hlt
      have hexp : s.is_expired now = true := by
        unfold UserSession.is_expired
        simpa using hlt
      unfold DatabaseManager.get_session
      rw [hs]
      simp [hexp]
    · intro hle
      have hexp : s.is_expired now = false := by
        unfold UserSession.is_expired
        simpa using hle
      unfold DatabaseManager.get_session
      rw [hs]
      simp [hexp]

/-- Witness for the amended C5 statement at a concrete expired session. -/
theorem get_session_expiry_amended_witness :
    DatabaseManager.get_session [c1Session]
        "aaaaaaaa-aaaa-4aaa-8aaa-aaaaaaaaaaaa" 2000 =
      (none, UserSession.delete [c1Session]
        "aaaaaaaa-aaaa-4aaa-8aaa-aaaaaaaaaaaa") :=
  ((get_session_expiry_amended [c1Session]
      "aaaaaaaa-aaaa-4aaa-8aaa-aaaaaaaaaaaa" 2000).2 c1Session
    (by decide)).1 (by decide)

namespace AccessRequest

/-- `AccessRequest.create`: new row with status open, `expiresAt =
createdAt + duration` when `duration > 0` and NULL otherwise. -/
def create (request_id : String) (telegram_user_id chat_id : Int)
    (duration : Int) (ip_address : Option IPv4) (now : Int) : AccessRequest :=
  { id := request_id, telegram_user_id := telegram_user_id, chat_id := chat_id,
    ip_address := ip_address, duration := duration, status := .opened,
    created_at := now,
    expires_at := if duration > 0 then some (now + duration) else none,
    closed_at := none }

/-- `AccessRequest.get_by_id`: `SELECT * FROM access_requests WHERE id = ?`. -/
def get_by_id (db : List AccessRequest) (request_id : String) :
    Option AccessRequest :=
  db.find? (fun r => r.id == request_id)

/-- `AccessRequest.close`: unconditionally sets `status = 'closed'` and
`closed_at = now` on the fetched record. -/
def close (r : AccessRequest) (now : Int) : AccessRequest :=
  { r with status := .closed, closed_at := some now }

/-- `AccessRequest.is_expired`: false for a NULL `expires_at`, otherwise the
strict comparison `now > expires_at`. -/
def is_expired (r : AccessRequest) (now : Int) : Bool :=
  match r.expires_at with
  | none => false
  | some e => decide (now > e)

end AccessRequest

/-- `DatabaseManager.close_access_request`: fetch by id; if present, run the
unconditional close UPDATE (`SET status='closed', closed_at=? WHERE id=?`) and
return the mutated record; if absent, return absent. -/
def DatabaseManager.close_access_request (db : List AccessRequest)
    (request_id : String) (now : Int) : Option AccessRequest × List AccessRequest :=
  match AccessRequest.get_by_id db request_id with
  | none => (none, db)
  | some r =>
      (some (r.close now),
       db.map (fun x =>
         if x.id == request_id then
           { x with status := .closed, closed_at := some now }
         else x))

/-- An access request that is already Closed, with `closedAt = 50`. -/
def c3Closed : AccessRequest :=
  { id := "dddddddd-dddd-4ddd-8ddd-dddddddddddd", telegram_user_id := 1,
    chat_id := 2, ip_address := some (5, 6, 7, 8), duration := 3600,
    status := .closed, created_at := 0, expires_at := some 3600,
    closed_at := some 50 }

/-- C3 counterexample: closing an already-Closed request again overwrites the
stored `closedAt` (50 becomes 80), so the second close does modify the stored
record, contrary to the claim. -/
theorem close_access_request_counterexample :
    c3Closed.status = AccessStatus.closed ∧ c3Closed.closed_at = some 50 ∧
    ((DatabaseManager.close_access_request [c3Closed]
        "dddddddd-dddd-4ddd-8ddd-dddddddddddd" 80).2.map
      (fun r => r.closed_at)) = [some 80] := by
  decide

/-- C3 amended: `closeRequest` on an absent id returns absent without change;
on an existing request — Open or already Closed — it unconditionally sets
`status = Closed` and `closedAt = now` and returns the updated record, so a
repeated close keeps the status Closed but overwrites `closedAt` with the new
time; rows with other ids are untouched and the invariant "closedAt is set if
and only if status = Closed" is preserved. -/
theorem close_access_request_amended (db : List AccessRequest)
    (request_id : String) (now : Int) :
    (AccessRequest.get_by_id db request_id = none →
       DatabaseManager.close_access_request db request_id now = (none, db)) ∧
    (∀ r, AccessRequest.get_by_id db request_id = some r →
       (DatabaseManager.close_access_request db request_id now).1 =
           some { r with status := AccessStatus.closed, closed_at := some now } ∧
       ∀ x ∈ db,
         (x.id = request_id →
            { x with status := AccessStatus.closed, closed_at := some now } ∈
              (DatabaseManager.close_access_request db request_id now).2) ∧
         (x.id ≠ request_id →
            x ∈ (DatabaseManager.close_access_request db request_id now).2)) ∧
    ((∀ x ∈ db, x.closed_at.isSome = true ↔ x.status = AccessStatus.closed) →
       ∀ x ∈ (DatabaseManager.close_access_request db request_id now).2,
         (x.closed_at.isSome = true ↔ x.status = AccessStatus.closed)) := by
  refine ⟨?_, ?_, ?_⟩
  · intro h
    unfold DatabaseManager.close_access_request
    rw [h]
  · intro r hr
    unfold DatabaseManager.close_access_request
    rw [hr]
    refine ⟨rfl, ?_⟩
    intro x hx
    constructor
    · intro hid
      exact List.mem_map.mpr ⟨x, hx, by simp [hid]⟩
    · intro hid
      exact List.mem_map.mpr ⟨x, hx, by simp [hid]⟩
  · intro hinv x hx
    unfold DatabaseManager.close_access_request at hx
    cases hfind : AccessRequest.get_by_id db request_id with
    | none =>
        rw [hfind] at hx
        exact hinv x hx
    | some r =>
        rw [hfind] at hx
        simp only [List.mem_map] at hx
        obtain ⟨y, hy, hyx⟩ := hx
        by_cases hid : y.id == request_id
        · rw [if_pos hid] at hyx
          subst hyx
          simp
        · rw [if_neg hid] at hyx
          subst hyx
          exact hinv y hy

/-- Witness for the amended C3 statement: a second close at time 80 returns the
record re-stamped with `closedAt = 80`. -/
theorem close_access_request_amended_witness :
    (DatabaseManager.close_access_request [c3Closed]
        "dddddddd-dddd-4ddd-8ddd-dddddddddddd" 80).1 =
      some { c3Closed with status := AccessStatus.closed, closed_at := some 80 } :=
  (((close_access_request_amended [c3Closed]
      "dddddddd-dddd-4ddd-8ddd-dddddddddddd" 80).2.1) c3Closed (by decide)).1

/-- `is_local_ip` from `fab/utils/ip_utils.py`, on the four octets of a
syntactically valid IPv4 address: loopback 127/8, the RFC1918 ranges 10/8,
172.16/12 and 192.168/16, link-local 169.254/16, and the three TEST-NET
ranges. -/
def is_local_ip : IPv4 → Bool
  | (a, b, c, _) =>
    a == 127 || a == 10 ||
    (a == 172 && decide (16 ≤ b ∧ b ≤ 31)) ||
    (a == 192 && b == 168) ||
    (a == 169 && b == 254) ||
    (a == 192 && b == 0 && c == 2) ||
    (a == 198 && b == 51 && c == 100) ||
    (a == 203 && b == 0 && c == 113)

/-- `Database.cleanup_expired_sessions`:
`DELETE FROM user_sessions WHERE expires_at < ?` with rowcount. -/
def cleanup_expired_sessions (db : List UserSession) (now : Int) :
    List UserSession × Nat :=
  (db.filter (fun s => !(decide (s.expires_at < now))),
   db.countP (fun s => decide (s.expires_at < now)))

/-- Row predicate of the sweep UPDATE in
`Database.cleanup_expired_access_requests`:
`status = 'open' AND expires_at < ?`.  An SQL NULL `expires_at` satisfies no
comparison and never matches. -/
def sweepMatch (now : Int) (r : AccessRequest) : Bool :=
  r.status == AccessStatus.opened &&
    (match r.expires_at with
     | some e => decide (e < now)
     | none => false)

/-- `Database.cleanup_expired_access_requests`:
`UPDATE access_requests SET status='closed', closed_at=CURRENT_TIMESTAMP
WHERE status='open' AND expires_at < ?` with rowcount. -/
def cleanup_expired_access_requests (db : List AccessRequest) (now : Int) :
    List AccessRequest × Nat :=
  (db.map (fun r =>
     if sweepMatch now r then
       { r with status := .closed, closed_at := some now }
     else r),
   db.countP (sweepMatch now))

/-- Outcome of one Sweeper tick (`DatabaseManager.cleanup_expired_data`). -/
structure SweepResult where
  store : Store
  expired_sessions_removed : Nat
  expired_requests_closed : Nat
  close_publishes : List IPv4
deriving DecidableEq, Repr

/-- `DatabaseManager.cleanup_expired_data`, the Sweeper tick body: removes
expired sessions and bulk-closes expired requests, returning the two counts.
No code in this path calls a publisher, so the list of close-publish calls
made during the tick (`close_publishes`) is always empty. -/
def cleanup_expired_data (st : Store) (now : Int) : SweepResult :=
  let sres := cleanup_expired_sessions st.sessions now
  let rres := cleanup_expired_access_requests st.requests now
  { store := { sessions := sres.1, requests := rres.1 },
    expired_sessions_removed := sres.2,
    expired_requests_closed := rres.2,
    close_publishes := [] }

/-- Open request, external IP, already expired at the tick time 200. -/
def c2Req1 : AccessRequest :=
  { id := "11111111-1111-4111-8111-111111111111", telegram_user_id := 1,
    chat_id := 2, ip_address := some (5, 6, 7, 8), duration := 3600,
    status := .opened, created_at := 0, expires_at := some 150,
    closed_at := none }

/-- Open request whose `expiresAt` equals the tick time 200 exactly. -/
def c2Req2 : AccessRequest :=
  { id := "22222222-2222-4222-8222-222222222222", telegram_user_id := 1,
    chat_id := 2, ip_address := some (9, 9, 9, 9), duration := 3600,
    status := .opened, created_at := 0, expires_at := some 200,
    closed_at := none }

/-- Store holding the two requests above. -/
def c2Store : Store := { sessions := [], requests := [c2Req1, c2Req2] }

/-- C2 counterexample: at tick time 200, the request with `expiresAt = 200`
(at, not before, now) is left Open because the sweep uses the strict
comparison `expires_at < now`; and although one non-excluded request is swept
to Closed, the tick makes zero close-publish calls rather than exactly one. -/
theorem sweeper_counterexample :
    c2Req1.status = AccessStatus.opened ∧ c2Req1.expires_at = some 150 ∧
    c2Req2.status = AccessStatus.opened ∧ c2Req2.expires_at = some 200 ∧
    is_local_ip (5, 6, 7, 8) = false ∧
    (cleanup_expired_data c2Store 200).expired_requests_closed = 1 ∧
    ((cleanup_expired_data c2Store 200).store.requests.map
        (fun r => (r.status, r.closed_at))) =
      [(AccessStatus.closed, some 200), (AccessStatus.opened, none)] ∧
    (cleanup_expired_data c2Store 200).close_publishes = [] := by
  decide

/-- C2 amended: on each Sweeper tick, every Open access request whose
`expiresAt` is strictly before now is set to Closed with `closedAt = now`;
requests that do not match (already Closed, unexpired, boundary
`expiresAt = now`, or NULL `expiresAt`) are stored unchanged; and the tick
itself makes no close-publish calls. -/
theorem sweeper_closes_expired (st : Store) (now : Int) :
    (∀ r ∈ st.requests, ∀ e, r.status = AccessStatus.opened →
       r.expires_at = some e → e < now →
       { r with status := AccessStatus.closed, closed_at := some now } ∈
         (cleanup_expired_data st now).store.requests) ∧
    (∀ r ∈ st.requests, sweepMatch now r = false →
       r ∈ (cleanup_expired_data st now).store.requests) ∧
    (cleanup_expired_data st now).close_publishes = [] := by
  refine ⟨?_, ?_, rfl⟩
  · intro r hr e hopen hexp hlt
    have hm : sweepMatch now r = true := by
      unfold sweepMatch
      rw [hopen, hexp]
      simp [hlt]
    exact List.mem_map.mpr ⟨r, hr, by rw [if_pos hm]⟩
  · intro r hr hm
    exact List.mem_map.mpr ⟨r, hr, by rw [if_neg (by simp [hm])]⟩

/-- Witness for the amended C2 statement at the concrete two-request store. -/
theorem sweeper_closes_expired_witness :
    { c2Req1 with status := AccessStatus.closed, closed_at := some 200 } ∈
      (cleanup_expired_data c2Store 200).store.requests ∧
    c2Req2 ∈ (cleanup_expired_data c2Store 200).store.requests :=
  ⟨(sweeper_closes_expired c2Store 200).1 c2Req1 (by decide) 150 (by decide)
      (by decide) (by decide),
   (sweeper_closes_expired c2Store 200).2.1 c2Req2 (by decide) (by decide)⟩

/-- Lowercase hexadecimal rendering of one nibble, as produced by Python's
`str(uuid.UUID)`: code points 48-57 for 0-9, 97-102 for a-f. -/
def hexChar (n : Fin 16) : Char :=
  Char.ofNat (if n.val < 10 then 48 + n.val else 87 + n.val)

/-- The variant nibble of an RFC 4122 UUID: the two top bits are forced to
`10`, so the rendered digit is one of 8, 9, a, b. -/
def variantChar (n : Fin 16) : Char :=
  hexChar ⟨8 + n.val % 4, by omega⟩

/-- The 36 characters of `str(uuid.uuid4())`: 32 random nibbles rendered in
lowercase hex with hyphens after nibbles 8, 12, 16 and 20, the version nibble
(index 12) forced to 4 and the variant nibble (index 16) forced to `10xx`. -/
def uuid4Chars (f : Fin 32 → Fin 16) : List Char :=
  [hexChar (f 0), hexChar (f 1), hexChar (f 2), hexChar (f 3),
   hexChar (f 4), hexChar (f 5), hexChar (f 6), hexChar (f 7), '-',
   hexChar (f 8), hexChar (f 9), hexChar (f 10), hexChar (f 11), '-',
   '4', hexChar (f 13), hexChar (f 14), hexChar (f 15), '-',
   variantChar (f 16), hexChar (f 17), hexChar (f 18), hexChar (f 19), '-',
   hexChar (f 20), hexChar (f 21), hexChar (f 22), hexChar (f 23),
   hexChar (f 24), hexChar (f 25), hexChar (f 26), hexChar (f 27),
   hexChar (f 28), hexChar (f 29), hexChar (f 30), hexChar (f 31)]

/-- `str(uuid.uuid4())`, the token generator used by `UserSession.create`,
parameterised by the 32 random nibbles. -/
def uuid4String (f : Fin 32 → Fin 16) : String :=
  String.mk (uuid4Chars f)

/-- `UserSession.create`: generates a version-4 UUID token, computes
`expiresAt = now + ttl`, inserts the row with `used = false` and returns it. -/
def UserSession.create (f : Fin 32 → Fin 16) (telegram_user_id chat_id : Int)
    (expiry_seconds : Int) (now : Int) (db : List UserSession) :
    UserSession × List UserSession :=
  let s : UserSession :=
    { token := uuid4String f, telegram_user_id := telegram_user_id,
      chat_id := chat_id, ip_address := none, created_at := now,
      expires_at := now + expiry_seconds, used := false }
  (s, db ++ [s])

/-- One character of the class `[0-9a-f]` of `UUID_PATTERN` in
`fab/web/server.py`. -/
def isHexLowerDigit (c : Char) : Bool :=
  decide ('0' ≤ c ∧ c ≤ '9') || decide ('a' ≤ c ∧ c ≤ 'f')

/-- The final group `[0-9a-f]{12}$` of `UUID_PATTERN`. -/
def uuidTail12 : List Char → Bool
  | [e0, e1, e2, e3, e4, e5, e6, e7, e8, e9, e10, e11] =>
      [e0, e1, e2, e3, e4, e5, e6, e7, e8, e9, e10, e11].all isHexLowerDigit
  | _ => false

/-- The anchored regular expression `UUID_PATTERN` of `fab/web/server.py`:
`[0-9a-f]{8}-[0-9a-f]{4}-4[0-9a-f]{3}-[89ab][0-9a-f]{3}-[0-9a-f]{12}`. -/
def uuidPatternMatch : List Char → Bool
  | a0 :: a1 :: a2 :: a3 :: a4 :: a5 :: a6 :: a7 :: h0 ::
    b0 :: b1 :: b2 :: b3 :: h1 ::
    v :: c0 :: c1 :: c2 :: h2 ::
    w :: d0 :: d1 :: d2 :: h3 :: rest =>
      [a0, a1, a2, a3, a4, a5, a6, a7].all isHexLowerDigit &&
      h0 == '-' &&
      [b0, b1, b2, b3].all isHexLowerDigit &&
      h1 == '-' &&
      v == '4' && [c0, c1, c2].all isHexLowerDigit &&
      h2 == '-' &&
      (w == '8' || w == '9' || w == 'a' || w == 'b') &&
      [d0, d1, d2].all isHexLowerDigit &&
      h3 == '-' &&
      uuidTail12 rest
  | _ => false

/-- `_validate_token` from `fab/web/server.py`: the token must be non-empty,
of length 36, and its lowercase form must match `UUID_PATTERN`. -/
def _validate_token (token : String) : Bool :=
  token.length == 36 && uuidPatternMatch (token.toList.map Char.toLower)

/-- Every rendered nibble is a lowercase hexadecimal digit. -/
theorem isHexLowerDigit_hexChar (n : Fin 16) : isHexLowerDigit (hexChar n) = true := by
  revert n
  decide

/-- Rendered nibbles are fixed points of `Char.toLower`. -/
theorem toLower_hexChar (n : Fin 16) : Char.toLower (hexChar n) = hexChar n := by
  revert n
  decide

/-- The variant digit is always one of 8, 9, a, b. -/
theorem variantChar_ok (n : Fin 16) :
    ((variantChar n == '8') || (variantChar n == '9') ||
     (variantChar n == 'a') || (variantChar n == 'b')) = true := by
  revert n
  decide

/-- The variant digit is a fixed point of `Char.toLower`. -/
theorem toLower_variantChar (n : Fin 16) :
    Char.toLower (variantChar n) = variantChar n := by
  revert n
  decide

/-- `Char.toLower` keeps the hyphen. -/
theorem toLower_hyphen : Char.toLower '-' = '-' := by decide

/-- `Char.toLower` keeps the digit 4. -/
theorem toLower_four : Char.toLower '4' = '4' := by decide

/-- The fixed duration allow-list `ALLOWED_DURATIONS` of `fab/web/server.py`:
1, 3, 8 and 12 hours in seconds. -/
def ALLOWED_DURATIONS : List Int := [3600, 10800, 28800, 43200]

/-- `MAX_DURATION` (12 hours) from `fab/web/server.py`. -/
def MAX_DURATION : Int := 43200

/-- `_validate_duration`: the integer value must be in the allow-list,
followed by the redundant range check `0 < d <= MAX_DURATION`. -/
def _validate_duration (d : Int) : Option Int :=
  if !(ALLOWED_DURATIONS.contains d) then none
  else if decide (d ≤ 0) || decide (MAX_DURATION < d) then none
  else some d

/-- Keys `_validate_json_data` treats as injection attempts. -/
def suspicious_keys : List String :=
  ["__proto__", "constructor", "prototype", "eval", "function"]

/-- Python's `str.lower`, character by character. -/
def lowerStr (s : String) : String :=
  String.mk (s.toList.map Char.toLower)

/-- `_validate_json_data`: the body must be a JSON object with at most ten
keys, none of them suspicious; a missing body is not a dict and is rejected.
JSON objects are modelled as association lists with integer values, which
covers all the fields the embedded route reads. -/
def _validate_json_data (body : Option (List (String × Int))) :
    Option (List (String × Int)) :=
  match body with
  | none => none
  | some data =>
      if 10 < data.length then none
      else if data.any (fun kv => suspicious_keys.contains (lowerStr kv.1)) then none
      else some data

/-- Outward result of the `open_access` route: either the neutral
`("OK", 200)` body shared by every rejection path, or the success JSON
carrying the created request's id and expiry. -/
inductive WebResponse where
  | ok
  | openSuccess (access_id : String) (expires_at : Option Int)
deriving DecidableEq, Repr

/-- Attribute lookup of `to_rabbitmq_message` on an access request, as
performed by the publish step of `open_access`.  The dataclass in
`fab/db/models.py` defines `to_mqtt_payload` only, so this lookup fails with
`AttributeError` at run time; the absent method is modelled as `none`. -/
def to_rabbitmq_message_attr : Option (AccessRequest → String) := none

/-- The `/a/<token>` POST handler `open_access` of `fab/web/server.py`:
validates the token format, the request headers, the JSON body and the
duration, resolves and atomically consumes the session, creates the access
request, and for a non-local client IP serialises the request for the bus —
a step whose failed attribute lookup is caught by the handler's generic
exception guard, which returns the neutral response. -/
def open_access (st : Store) (token : String) (headersOk : Bool)
    (body : Option (List (String × Int))) (client_ip : IPv4) (now : Int)
    (new_id : String) : WebResponse × Store :=
  if !(_validate_token token) then (.ok, st)
  else if !headersOk then (.ok, st)
  else
    match _validate_json_data body with
    | none => (.ok, st)
    | some [] => (.ok, st)
    | some data =>
      match data.lookup "duration" with
      | none => (.ok, st)
      | some dv =>
        match _validate_duration dv with
        | none => (.ok, st)
        | some duration =>
          let gs := DatabaseManager.get_session st.sessions token now
          let st₁ : Store := { st with sessions := gs.2 }
          match gs.1 with
          | none => (.ok, st₁)
          | some s =>
            if s.is_expired now then (.ok, st₁)
            else if s.used then (.ok, st₁)
            else
              let ua := UserSession.use_atomic st₁.sessions token client_ip
              let st₂ : Store := { st₁ with sessions := ua.1 }
              if !ua.2 then (.ok, st₂)
              else
                let req := AccessRequest.create new_id s.telegram_user_id
                  s.chat_id duration (some client_ip) now
                let st₃ : Store := { st₂ with requests := st₂.requests ++ [req] }
                if is_local_ip client_ip then
                  (.openSuccess req.id req.expires_at, st₃)
                else
                  match to_rabbitmq_message_attr with
                  | none => (.ok, st₃)
                  | some serialize =>
                    let _ := serialize req
                    (.openSuccess req.id req.expires_at, st₃)

/-- C9. Generator/validator round-trip: every token produced by
`UserSession.create` — a version-4 UUID string — has length 36 and passes the
web layer's `_validate_token` format check, for every choice of the random
nibbles. -/
theorem created_token_validates (f : Fin 32 → Fin 16) :
    (uuid4String f).length = 36 ∧ _validate_token (uuid4String f) = true := by
  constructor
  · rfl
  · unfold _validate_token
    rw [Bool.and_eq_true]
    refine ⟨rfl, ?_⟩
    show uuidPatternMatch ((uuid4Chars f).map Char.toLower) = true
    unfold uuid4Chars
    simp only [List.map_cons, List.map_nil, toLower_hexChar, toLower_variantChar,
      toLower_hyphen, toLower_four]
    unfold uuidPatternMatch
    simp only [Bool.and_eq_true, List.all_cons, List.all_nil,
      isHexLowerDigit_hexChar, variantChar_ok]
    refine ⟨?_, ?_⟩
    · simp
    · unfold uuidTail12
      simp [isHexLowerDigit_hexChar]

/-- A duration outside the allow-list never validates. -/
theorem validate_duration_not_allowed (d : Int) (hd : d ∉ ALLOWED_DURATIONS) :
    _validate_duration d = none := by
  unfold _validate_duration
  have : ALLOWED_DURATIONS.contains d = false := by
    rw [← Bool.not_eq_true, List.contains_iff_exists_mem_beq]
    intro ⟨a, ha, hab⟩
    rw [beq_iff_eq] at hab
    subst hab
    exact hd ha
  rw [this]
  rfl

/-- C6. A `durationSeconds` outside the fixed allow-list
{3600, 10800, 28800, 43200} is rejected by `open_access` before the session
is touched: the response is the neutral one, no token is consumed and no
access request is created — the whole store is returned unchanged. -/
theorem open_access_rejects_bad_duration (st : Store) (token : String)
    (headersOk : Bool) (body : Option (List (String × Int))) (client_ip : IPv4)
    (now : Int) (new_id : String) (d : Int)
    (hbody : ∀ data, _validate_json_data body = some data →
       data.lookup "duration" = some d)
    (hd : d ∉ ALLOWED_DURATIONS) :
    open_access st token headersOk body client_ip now new_id =
      (WebResponse.ok, st) := by
  unfold open_access
  by_cases ht : _validate_token token = true
  · rw [ht]
    by_cases hh : headersOk = true
    · rw [hh]
      simp only [Bool.not_true, Bool.false_eq_true, if_false]
      cases hvb : _validate_json_data body with
      | none => rfl
      | some data =>
          cases data with
          | nil => rfl
          | cons kv rest =>
              have hl := hbody (kv :: rest) hvb
              simp [hl, validate_duration_not_allowed d hd]
    · have : headersOk = false := by simpa using hh
      rw [this]
      rfl
  · have : _validate_token token = false := by simpa using ht
    rw [this]
    rfl

/-- Witness for C6 at the concrete disallowed duration 9999. -/
theorem open_access_rejects_bad_duration_witness :
    open_access c2Store "aaaaaaaa-aaaa-4aaa-8aaa-aaaaaaaaaaaa" true
        (some [("duration", 9999)]) (5, 6, 7, 8) 100
        "33333333-3333-4333-8333-333333333333" = (WebResponse.ok, c2Store) :=
  open_access_rejects_bad_duration c2Store "aaaaaaaa-aaaa-4aaa-8aaa-aaaaaaaaaaaa"
    true (some [("duration", 9999)]) (5, 6, 7, 8) 100
    "33333333-3333-4333-8333-333333333333" 9999
    (by
      intro data h
      have hv : _validate_json_data (some [("duration", 9999)]) =
          some [("duration", 9999)] := by decide
      rw [hv] at h
      cases h
      decide)
    (by decide)

/-- C7. Uniform outward response: whichever precondition fails — malformed
token, absent or expired session, already-used token, or a duration outside
the allow-list — the outward response of `open_access` is the same neutral
one, so two runs differing only in which precondition failed are
indistinguishable to the caller. -/
theorem open_access_uniform_rejection (st : Store) (token : String)
    (headersOk : Bool) (body : Option (List (String × Int))) (client_ip : IPv4)
    (now : Int) (new_id : String)
    (hreject :
      _validate_token token = false ∨
      (DatabaseManager.get_session st.sessions token now).1 = none ∨
      (∃ s, (DatabaseManager.get_session st.sessions token now).1 = some s ∧
         s.used = true) ∨
      (∃ d, (∀ data, _validate_json_data body = some data →
         data.lookup "duration" = some d) ∧ _validate_duration d = none)) :
    (open_access st token headersOk body client_ip now new_id).1 =
      WebResponse.ok := by
  unfold open_access
  repeat' split
  all_goals try rfl
  all_goals rcases hreject with h | h | ⟨s', hs', hu⟩ | ⟨d, hb, hv⟩ <;>
    simp_all [to_rabbitmq_message_attr]

/-- Witness for C7: a malformed token is answered with the neutral response. -/
theorem open_access_uniform_rejection_witness :
    (open_access c2Store "not-a-uuid" true (some [("duration", 3600)])
        (5, 6, 7, 8) 100 "44444444-4444-4444-8444-444444444444").1 =
      WebResponse.ok :=
  open_access_uniform_rejection c2Store "not-a-uuid" true
    (some [("duration", 3600)]) (5, 6, 7, 8) 100
    "44444444-4444-4444-8444-444444444444" (Or.inl (by decide))

/-- Valid unused session for the C4 run. -/
def c4Session : UserSession :=
  { token := "eeeeeeee-eeee-4eee-8eee-eeeeeeeeeeee", telegram_user_id := 7,
    chat_id := 8, ip_address := none, created_at := 0, expires_at := 1000,
    used := false }

/-- Store holding only the C4 session. -/
def c4Store : Store := { sessions := [c4Session], requests := [] }

/-- C4.  Evaluation of `open_access` at a fully valid request from the
non-local IP 5.6.7.8: the session token is consumed and the access request is
created, but the serialisation step for the bus looks up the nonexistent
method `to_rabbitmq_message`, so the handler's exception guard answers with
the neutral response instead of the success JSON carrying the request's id
and expiry — the code contradicts its own test suite, which expects the
success JSON for this exact kind of request. -/
theorem open_access_missing_serializer_bug :
    (open_access c4Store "eeeeeeee-eeee-4eee-8eee-eeeeeeeeeeee" true
        (some [("duration", 3600)]) (5, 6, 7, 8) 100
        "ffffffff-ffff-4fff-8fff-ffffffffffff").1 = WebResponse.ok ∧
    ((open_access c4Store "eeeeeeee-eeee-4eee-8eee-eeeeeeeeeeee" true
        (some [("duration", 3600)]) (5, 6, 7, 8) 100
        "ffffffff-ffff-4fff-8fff-ffffffffffff").2.requests.map
      (fun r => (r.id, r.status, r.expires_at))) =
      [("ffffffff-ffff-4fff-8fff-ffffffffffff", AccessStatus.opened, some 3700)] ∧
    ((open_access c4Store "eeeeeeee-eeee-4eee-8eee-eeeeeeeeeeee" true
        (some [("duration", 3600)]) (5, 6, 7, 8) 100
        "ffffffff-ffff-4fff-8fff-ffffffffffff").2.sessions.map
      (fun s => (s.used, s.ip_address))) = [(true, some (5, 6, 7, 8))] ∧
    is_local_ip (5, 6, 7, 8) = false := by
  decide

/-- State of `MqttService` in `fab/utils/mqtt.py`: the configuration flag and
the local `_expiry_map` from retained topic to scheduled expiry time.  The
outcome of `MqttPublisher.publish` for a topic is abstracted by an oracle
`pubOk` describing broker reachability. -/
structure MqttService where
  enabled : Bool
  expiry_map : List (String × Int)
deriving DecidableEq, Repr

/-- Topic of a whitelist entry: `<prefix>/<ipAddress>`. -/
def whitelistTopic (topicPre ip : String) : String :=
  topicPre ++ "/" ++ ip

/-- Removal of a key from the expiry map (`dict.pop(topic, None)`). -/
def eraseKey : List (String × Int) → String → List (String × Int)
  | [], _ => []
  | p :: rest, k => if p.1 == k then eraseKey rest k else p :: eraseKey rest k

/-- Insertion or in-place update of a key (`dict[topic] = expire_at`). -/
def setKey : List (String × Int) → String → Int → List (String × Int)
  | [], k, v => [(k, v)]
  | p :: rest, k, v =>
      if p.1 == k then (k, v) :: rest else p :: setKey rest k v

/-- `MqttService.publish_whitelist_open`: when disabled, log only and report
success; reject a non-positive TTL; otherwise publish the retained payload
and on success schedule the local expiry `now + ttl`. -/
def publish_whitelist_open (svc : MqttService) (pubOk : String → Bool)
    (topicPre ip : String) (ttl : Int) (now : Int) : Bool × MqttService :=
  if !svc.enabled then (true, svc)
  else if decide (ttl ≤ 0) then (false, svc)
  else
    let topic := whitelistTopic topicPre ip
    if pubOk topic then
      (true, { svc with expiry_map := setKey svc.expiry_map topic (now + ttl) })
    else (false, svc)

/-- `MqttService.publish_whitelist_close`: when disabled, log only and report
success; otherwise publish the retained empty payload and pop the topic from
the expiry map — unconditionally, whether or not the publish succeeded. -/
def publish_whitelist_close (svc : MqttService) (pubOk : String → Bool)
    (topicPre ip : String) : Bool × MqttService :=
  if !svc.enabled then (true, svc)
  else
    let topic := whitelistTopic topicPre ip
    (pubOk topic, { svc with expiry_map := eraseKey svc.expiry_map topic })

/-- Body of the per-topic branch of `MqttService._cleanup_worker`: a
successful clear publish pops the entry, a failed one reschedules it ten
seconds later. -/
def cleanup_step (pubOk : String → Bool) (now : Int)
    (m : List (String × Int)) (topic : String) : List (String × Int) :=
  if pubOk topic then eraseKey m topic else setKey m topic (now + 10)

/-- One iteration of the `MqttService._cleanup_worker` loop: collect the
topics whose scheduled expiry has passed, then clear each in turn. -/
def cleanup_pass (svc : MqttService) (pubOk : String → Bool) (now : Int) :
    MqttService :=
  let expired :=
    (svc.expiry_map.filter (fun p => decide (p.2 ≤ now))).map (fun p => p.1)
  { svc with expiry_map := expired.foldl (cleanup_step pubOk now) svc.expiry_map }

/-- Lookup on a cons cell of an association list. -/
theorem lookup_cons_pair (k pk : String) (pv : Int) (rest : List (String × Int)) :
    List.lookup k ((pk, pv) :: rest) =
      if k = pk then some pv else List.lookup k rest := by
  by_cases h : k = pk
  · have hb : (k == pk) = true := by simpa using h
    simp [List.lookup, hb, h]
  · have hb : (k == pk) = false := by simpa using h
    simp [List.lookup, hb, h]

/-- Looking up a key after erasing it (or another one). -/
theorem lookup_eraseKey (m : List (String × Int)) (k k' : String) :
    (eraseKey m k).lookup k' = if k' = k then none else m.lookup k' := by
  induction m with
  | nil =>
      unfold eraseKey
      by_cases hk : k' = k <;> simp [hk]
  | cons p rest ih =>
      obtain ⟨pk, pv⟩ := p
      unfold eraseKey
      by_cases hpk : pk = k
      · rw [if_pos (by simpa using hpk), ih]
        by_cases hk : k' = k
        · rw [if_pos hk, if_pos hk]
        · rw [if_neg hk, if_neg hk, lookup_cons_pair,
            if_neg (by rw [hpk]; exact hk)]
      · rw [if_neg (by simpa using hpk), lookup_cons_pair]
        by_cases hkp : k' = pk
        · have hk : ¬(k' = k) := by rw [hkp]; exact hpk
          rw [if_pos hkp, if_neg hk, lookup_cons_pair, if_pos hkp]
        · rw [if_neg hkp, ih, lookup_cons_pair]
          by_cases hk : k' = k
          · rw [if_pos hk, if_pos hk]
          · rw [if_neg hk, if_neg hk, if_neg hkp]

/-- Looking up a key after setting it (or another one). -/
theorem lookup_setKey (m : List (String × Int)) (k k' : String) (v : Int) :
    (setKey m k v).lookup k' = if k' = k then some v else m.lookup k' := by
  induction m with
  | nil =>
      unfold setKey
      rw [lookup_cons_pair]
  | cons p rest ih =>
      obtain ⟨pk, pv⟩ := p
      unfold setKey
      by_cases hpk : pk = k
      · rw [if_pos (by simpa using hpk), lookup_cons_pair, lookup_cons_pair]
        by_cases hk : k' = k
        · rw [if_pos hk, if_pos hk]
        · have hkp : ¬(k' = pk) := by rw [hpk]; exact hk
          rw [if_neg hk, if_neg hk, if_neg hkp]
      · rw [if_neg (by simpa using hpk), lookup_cons_pair, lookup_cons_pair]
        by_cases hkp : k' = pk
        · have hk : ¬(k' = k) := by rw [hkp]; exact hpk
          rw [if_pos hkp, if_pos hkp, if_neg hk]
        · rw [if_neg hkp, if_neg hkp, ih]

/-- A topic not in the worked list is untouched by the cleanup fold. -/
theorem foldl_cleanup_not_mem (pubOk : String → Bool) (now : Int)
    (l : List String) (m : List (String × Int)) (t : String) (ht : t ∉ l) :
    (l.foldl (cleanup_step pubOk now) m).lookup t = m.lookup t := by
  induction l generalizing m with
  | nil => rfl
  | cons a rest ih =>
      have hta : t ≠ a := fun h => ht (by simp [h])
      have hrest : t ∉ rest := fun h => ht (List.mem_cons_of_mem a h)
      rw [List.foldl_cons, ih _ hrest]
      unfold cleanup_step
      by_cases hp : pubOk a
      · rw [if_pos hp, lookup_eraseKey, if_neg hta]
      · rw [if_neg hp, lookup_setKey, if_neg hta]

/-- A topic in the worked list ends up removed (successful clear) or
rescheduled ten seconds later (failed clear). -/
theorem foldl_cleanup_mem (pubOk : String → Bool) (now : Int)
    (l : List String) (m : List (String × Int)) (t : String)
    (hnd : l.Nodup) (ht : t ∈ l) :
    (l.foldl (cleanup_step pubOk now) m).lookup t =
      if pubOk t then none else some (now + 10) := by
  induction l generalizing m with
  | nil => cases ht
  | cons a rest ih =>
      rw [List.nodup_cons] at hnd
      rw [List.foldl_cons]
      by_cases hta : t = a
      · subst hta
        rw [foldl_cleanup_not_mem pubOk now rest _ t hnd.1]
        unfold cleanup_step
        by_cases hp : pubOk t
        · rw [if_pos hp, if_pos hp, lookup_eraseKey, if_pos rfl]
        · rw [if_neg hp, if_neg hp, lookup_setKey, if_pos rfl]
      · have : t ∈ rest := by
          cases List.mem_cons.mp ht with
          | inl h => exact absurd h hta
          | inr h => exact h
        exact ih _ hnd.2 this


/-- Enabled MQTT service holding one scheduled topic. -/
def c8Svc : MqttService :=
  { enabled := true, expiry_map := [("fw/5.6.7.8", 100)] }

/-- C8 counterexample: with the bus unreachable (every publish fails),
`publish_whitelist_close` reports failure yet still removes the topic's entry
from the local expiry map — the entry leaves the map without a successful
clear publish, contrary to the claim that this holds in every clearing code
path. -/
theorem publish_close_drops_entry_counterexample :
    (publish_whitelist_close c8Svc (fun _ => false) "fw" "5.6.7.8").1 = false ∧
    (publish_whitelist_close c8Svc (fun _ => false) "fw" "5.6.7.8").2.expiry_map
      = [] := by
  constructor
  · rfl
  · rfl

/-- C8 amended: the cleanup loop keeps a failed clear and reschedules it ten
seconds later, and removes an entry only on a successful clear publish; the
explicit `publish_whitelist_close`, however, removes the topic's entry from
the expiry map regardless of whether its clear publish succeeded. -/
theorem mqtt_clear_retry_amended (svc : MqttService) (pubOk : String → Bool)
    (now : Int) (t : String) (e : Int)
    (hnd : (svc.expiry_map.map Prod.fst).Nodup)
    (hmem : (t, e) ∈ svc.expiry_map) (hexp : e ≤ now) :
    (pubOk t = false →
       (cleanup_pass svc pubOk now).expiry_map.lookup t = some (now + 10)) ∧
    (pubOk t = true →
       (cleanup_pass svc pubOk now).expiry_map.lookup t = none) ∧
    (∀ topicPre ip, svc.enabled = true → whitelistTopic topicPre ip = t →
       (publish_whitelist_close svc pubOk topicPre ip).2.expiry_map.lookup t =
         none) := by
  have hexpired : t ∈
      (svc.expiry_map.filter (fun p => decide (p.2 ≤ now))).map
        (fun p => p.1) :=
    List.mem_map.mpr ⟨(t, e), List.mem_filter.mpr ⟨hmem, by simpa⟩, rfl⟩
  have hndexp :
      ((svc.expiry_map.filter (fun p => decide (p.2 ≤ now))).map
        (fun p => p.1)).Nodup := by
    have hsub : List.Sublist
        ((svc.expiry_map.filter (fun p => decide (p.2 ≤ now))).map
          (fun p => p.1))
        (svc.expiry_map.map (fun p => p.1)) :=
      (List.filter_sublist svc.expiry_map).map (fun p => p.1)
    exact List.Nodup.sublist hsub (by simpa [Function.comp] using hnd)
  have hfold := foldl_cleanup_mem pubOk now _ svc.expiry_map t hndexp hexpired
  refine ⟨?_, ?_, ?_⟩
  · intro hp
    unfold cleanup_pass
    rw [hfold, if_neg (by simp [hp])]
  · intro hp
    unfold cleanup_pass
    rw [hfold, if_pos hp]
  · intro topicPre ip hen htop
    unfold publish_whitelist_close
    rw [hen]
    simp only [Bool.not_true, Bool.false_eq_true, if_false]
    rw [htop, lookup_eraseKey, if_pos rfl]

/-- Witness for the amended C8 statement: an expired entry whose clear publish
fails stays in the map rescheduled to 210, and the explicit close empties the
map. -/
theorem mqtt_clear_retry_amended_witness :
    (cleanup_pass c8Svc (fun _ => false) 200).expiry_map.lookup "fw/5.6.7.8" =
      some 210 ∧
    (publish_whitelist_close c8Svc (fun _ => false) "fw"
        "5.6.7.8").2.expiry_map.lookup "fw/5.6.7.8" = none := by
  have h := mqtt_clear_retry_amended c8Svc (fun _ => false) 200 "fw/5.6.7.8" 100
    (by decide) (by decide) (by decide)
  exact ⟨h.1 rfl, h.2.2 "fw" "5.6.7.8" rfl rfl⟩

/-- `RabbitMQService.publish_access_event` of `fab/utils/rabbitmq.py`:
validate that the message parses as JSON (failure yields false before
anything else), log the event, and only when RabbitMQ is enabled hand the
message to the publisher.  The JSON parse outcome and the underlying
`publish_message` outcome are abstracted as booleans, both being decided by
external library and broker state. -/
def publish_access_event (enabled : Bool) (parseOk : Bool)
    (publishOk : Bool) : Bool :=
  if !parseOk then false
  else if !enabled then true
  else publishOk

/-- C10. A disabled bus is indistinguishable from a successful publish by the
returned boolean: with the event bus disabled by configuration, the
durable-queue `publish_access_event` on a valid JSON message returns true
without reaching the publisher, and the retained `publish_whitelist_open` and
`publish_whitelist_close` return true and leave the local state untouched,
whatever the broker would have answered. -/
theorem disabled_bus_publishes_report_true (parseOk publishOk : Bool)
    (svc : MqttService) (pubOk : String → Bool) (topicPre ip : String)
    (ttl now : Int)
    (hparse : parseOk = true) (hdis : svc.enabled = false) :
    publish_access_event false parseOk publishOk = true ∧
    publish_whitelist_open svc pubOk topicPre ip ttl now = (true, svc) ∧
    publish_whitelist_close svc pubOk topicPre ip = (true, svc) := by
  subst hparse
  refine ⟨rfl, ?_, ?_⟩
  · unfold publish_whitelist_open
    rw [hdis]
    rfl
  · unfold publish_whitelist_close
    rw [hdis]
    rfl

/-- Disabled MQTT service with a leftover scheduled entry. -/
def c10Svc : MqttService :=
  { enabled := false, expiry_map := [("fw/1.2.3.4", 50)] }

/-- Witness for C10 at a disabled service and an always-failing broker. -/
theorem disabled_bus_publishes_report_true_witness :
    publish_access_event false true false = true ∧
    publish_whitelist_open c10Svc (fun _ => false) "fw" "1.2.3.4" 3600 100 =
      (true, c10Svc) ∧
    publish_whitelist_close c10Svc (fun _ => false) "fw" "1.2.3.4" =
      (true, c10Svc) :=
  disabled_bus_publishes_report_true true false c10Svc (fun _ => false)
    "fw" "1.2.3.4" 3600 100 rfl rfl
